import Mathlib

/-!
Shallow embedding of the batch-manager repository.

The embedding covers the four source files:
  - src/BatchJob.ts         : the BatchManager scheduler (control flags,
                              running-task counter, cron ticks, the infinite
                              loop, signal handlers, nextTick / process exit);
  - src/ec2/InstanceIpManager.ts : the pid-file leader lock, the IPv6
                              rotation protocol requestChangeIpV6 and its
                              confirmation-polling loop, and changeIpv6
                              (lock handling, Resumed / DiscardRequested
                              signal emission);
  - the InstanceDiscarder   : the drain-target selection loop over the pm2
                              process list, the stop fan-out, and the
                              setInterval-based forced-termination timer.

Stateful TypeScript becomes explicit state passing: the scheduler and the
escalation timer are small-step machines (a state type, an event type, a
step function returning Option state, and a run function over event lists);
cloud API interaction becomes an environment record, with every outgoing
call recorded in a statistics record so that call counts can be stated.
-/

/-- Result of one lock-acquisition attempt of isSupervisionProcess: the
pid-file content after the attempt, whether the caller is the supervising
process, and whether the exclusive create (flag wx) succeeded. -/
structure AcqResult where
  lock : Option Nat
  supervising : Bool
  created : Bool
  deriving DecidableEq, Repr

/-- Embedding of InstanceIpManager.isSupervisionProcess and the identical
InstanceDiscarder.isSupervisionProcess: try to write the own pid to the pid
file with the exclusive flag wx; if the file already exists, read the
recorded pid and report supervising exactly when it equals the own pid.
The lock argument is the pid-file content (none when absent); each lock
name (instance-ip-manager.pid, instance-discarder.pid) has its own state. -/
def isSupervisionProcess (lock : Option Nat) (pid : Nat) : AcqResult :=
  match lock with
  | none => { lock := some pid, supervising := true, created := true }
  | some owner => { lock := some owner, supervising := owner == pid, created := false }

/-- Control state of BatchManager (BatchJob.ts): the three gating flags,
the running-task counter (Int, as a JS number that is incremented and
decremented), plus two observers of the semantics: inFlight counts job
bodies currently between their increment and their decrement, executions
counts job-body starts, and exitCode records a process.exit call. -/
structure BMState where
  needKillProcess : Bool
  isDiscarding : Bool
  isIpChanging : Bool
  nowRunningTask : Int
  inFlight : Nat
  executions : Nat
  exitCode : Option Nat
  deriving DecidableEq, Repr

/-- Events of the BatchManager machine. sigint / sigusr1 / sigusr2 /
sigcont are the four signal handlers installed in the constructor; cronTick
is one firing of a CronJob registered by booking; iterStart is the start of
one unblocked iteration of infinite; pollTick is one blocked-poll pass of
infinite (usleep then nextTick); jobDone is the completion of a started job
body, carrying whether the job body threw (the catch swallows it). -/
inductive BMEv where
  | sigint
  | sigusr1 (enableDiscarder : Bool)
  | sigusr2 (enableIpManager : Bool)
  | sigcont
  | cronTick
  | iterStart
  | pollTick
  | jobDone (failed : Bool)
  deriving DecidableEq, Repr

/-- Embedding of BatchManager.nextTick: when no task is running and a kill
is requested, call process.exit(0), recorded as exitCode := some 0. -/
def nextTick (s : BMState) : BMState :=
  if s.nowRunningTask = 0 ∧ s.needKillProcess = true then { s with exitCode := some 0 } else s

/-- Guard shared by booking and infinite:
isDiscarding or isIpChanging or needKillProcess. -/
def bmBlocked (s : BMState) : Bool :=
  s.isDiscarding || s.isIpChanging || s.needKillProcess

/-- Small-step semantics of BatchManager. Steps are only enabled while the
process has not exited. A blocked cronTick returns the state unchanged (the
tick is dropped, nothing is queued); an unblocked cronTick or iterStart
increments nowRunningTask and starts a job body; jobDone (enabled only when
a body is in flight) decrements the counter, ignores whether the body
threw, and evaluates nextTick — exactly the order of the source. -/
def bmStep (s : BMState) (e : BMEv) : Option BMState :=
  if s.exitCode = none then
    match e with
    | .sigint => some (nextTick { s with needKillProcess := true })
    | .sigusr1 en => some (if en then { s with isDiscarding := true } else s)
    | .sigusr2 en => some (if en then { s with isIpChanging := true } else s)
    | .sigcont => some { s with isIpChanging := false }
    | .cronTick =>
        some (if bmBlocked s then s
          else { s with nowRunningTask := s.nowRunningTask + 1,
                        inFlight := s.inFlight + 1,
                        executions := s.executions + 1 })
    | .iterStart =>
        if bmBlocked s then none
        else some { s with nowRunningTask := s.nowRunningTask + 1,
                           inFlight := s.inFlight + 1,
                           executions := s.executions + 1 }
    | .pollTick => if bmBlocked s then some (nextTick s) else none
    | .jobDone _ =>
        if s.inFlight = 0 then none
        else some (nextTick { s with nowRunningTask := s.nowRunningTask - 1,
                                     inFlight := s.inFlight - 1 })
  else none

/-- Run of the BatchManager machine over a list of events. -/
def bmRun (s : BMState) : List BMEv → Option BMState
  | [] => some s
  | e :: es =>
    match bmStep s e with
    | none => none
    | some s' => bmRun s' es

/-- Initial BatchManager state, as set up by the constructor. -/
def bmInit : BMState :=
  { needKillProcess := false, isDiscarding := false, isIpChanging := false,
    nowRunningTask := 0, inFlight := 0, executions := 0, exitCode := none }

/-- Constant IP_CHANGE_LEADTIME (ms) from InstanceIpManager.ts. -/
def IP_CHANGE_LEADTIME : Nat := 10000

/-- Constant MYIP_CHECK_RETRY from InstanceIpManager.ts. -/
def MYIP_CHECK_RETRY : Nat := 30

/-- Constant MYIP_CHECK_RETRY_DURATION (ms) from InstanceIpManager.ts. -/
def MYIP_CHECK_RETRY_DURATION : Nat := 5000

/-- Constant MYIP_CHECK_TIMEOUT (ms) from InstanceIpManager.ts. -/
def MYIP_CHECK_TIMEOUT : Nat := 1000

/-- Snapshot returned by InstanceIpManager.networkInfo: the network
interface id and the currently bound IPv6 addresses. -/
structure NetworkInfo where
  id : String
  ips : List String
  deriving DecidableEq, Repr

/-- Environment of one requestChangeIpV6 run: the fetched interface
snapshot, whether the unassignIpv6Addresses call is accepted by the cloud
API, the value of assignIpv6Addresses (none models a missing or null
AssignedIpv6Addresses result, which the source rejects), and the remote
echo service: echo i is the result of the lookup on attempt i, none
modelling a thrown network error or timeout (swallowed by the source). -/
structure IpEnv where
  info : NetworkInfo
  unassignOk : Bool
  assignResult : Option (List String)
  echo : Nat → Option String

/-- Failure sites of requestChangeIpV6. In the source assignFailed and
confirmExhausted throw the same message string; they are distinct throw
sites. unassignRejected models a rejected unassignIpv6Addresses call. -/
inductive RcErr where
  | unassignRejected
  | assignFailed
  | staleReassigned
  | confirmExhausted
  deriving DecidableEq, Repr

/-- Outgoing-call record of one requestChangeIpV6 run: the argument of
every unassignIpv6Addresses call (interface id and address list), the
argument of every assignIpv6Addresses call (interface id and address
count), and the number of remote echo lookups performed. -/
structure IpStats where
  unassignCalls : List (String × List String)
  assignCalls : List (String × Nat)
  echoLookups : Nat
  deriving DecidableEq, Repr

/-- Comparison ipFromRemote === newIp of the confirmation loop: a lookup
result r matches only when it is a string equal to the (possibly absent,
when AssignedIpv6Addresses was empty) new address. -/
def echoMatch (newIp : Option String) (r : Option String) : Bool :=
  match newIp, r with
  | some ip, some s => s == ip
  | _, _ => false

/-- Confirmation loop of requestChangeIpV6, started at attempt i with the
given remaining attempt budget: each iteration performs one lookup; a
thrown lookup is swallowed; the loop breaks on the first match. Returns
whether the change was confirmed and how many lookups were performed. -/
def myIpCheckLoop (echo : Nat → Option String) (newIp : Option String) : Nat → Nat → Bool × Nat
  | _, 0 => (false, 0)
  | i, fuel + 1 =>
    if echoMatch newIp (echo i) then (true, 1)
    else
      let r := myIpCheckLoop echo newIp (i + 1) fuel
      (r.1, r.2 + 1)

/-- Embedding of InstanceIpManager.requestChangeIpV6: unassign all bound
addresses (the call is skipped when none are bound), request exactly one
new address, reject a missing assignment result, reject a new address that
was already bound (before any polling), then poll the remote echo up to
MYIP_CHECK_RETRY times. A JS detail kept faithfully: when the assignment
result is present but empty, AssignedIpv6Addresses[0] is undefined
(head? = none), the stale-address check does not fire, and the run fails
only after exhausting the confirmation loop. -/
def requestChangeIpV6 (env : IpEnv) : Except RcErr String × IpStats :=
  let unassigns : List (String × List String) :=
    if env.info.ips.isEmpty then [] else [(env.info.id, env.info.ips)]
  if ¬env.info.ips.isEmpty ∧ env.unassignOk = false then
    (.error .unassignRejected,
      { unassignCalls := unassigns, assignCalls := [], echoLookups := 0 })
  else
    match env.assignResult with
    | none =>
      (.error .assignFailed,
        { unassignCalls := unassigns, assignCalls := [(env.info.id, 1)], echoLookups := 0 })
    | some addrs =>
      let newIp := addrs.head?
      if (match newIp with | some ip => env.info.ips.contains ip | none => false) then
        (.error .staleReassigned,
          { unassignCalls := unassigns, assignCalls := [(env.info.id, 1)], echoLookups := 0 })
      else
        let r := myIpCheckLoop env.echo newIp 0 MYIP_CHECK_RETRY
        match newIp, r.1 with
        | some ip, true =>
          (.ok ip,
            { unassignCalls := unassigns, assignCalls := [(env.info.id, 1)], echoLookups := r.2 })
        | _, _ =>
          (.error .confirmExhausted,
            { unassignCalls := unassigns, assignCalls := [(env.info.id, 1)], echoLookups := r.2 })

/-- Embedding of InstanceIpManager.unlinkPidFile: the unlink is wrapped in
a try/catch that swallows every error, so it succeeds (resulting pid-file
state none) also when the marker is already removed. -/
def unlinkPidFile (_lock : Option Nat) : Option Nat := none

/-- Outcome of one changeIpv6 call: the pid-file state afterwards, the
isWorking flag afterwards, the returned value (ok none models the early
undefined returns of the not-leader and already-working paths, error
models the rethrown failure), which signals were emitted (SIGCONT alias
Resumed, SIGUSR1 alias DiscardRequested), and the outgoing-call record. -/
structure ChangeOutcome where
  lock : Option Nat
  isWorking : Bool
  result : Except RcErr (Option String)
  emittedResumed : Bool
  emittedDiscard : Bool
  stats : IpStats
  deriving Repr

/-- Empty outgoing-call record (no cloud call performed). -/
def emptyIpStats : IpStats := { unassignCalls := [], assignCalls := [], echoLookups := 0 }

/-- Embedding of InstanceIpManager.changeIpv6: acquire the ip-manager
leader lock via isSupervisionProcess; a non-supervising caller returns
undefined at once; a supervising caller that is already working returns
undefined; otherwise run requestChangeIpV6 — on success clear isWorking,
unlink the pid file, emit SIGCONT (Resumed) and return the new address; on
failure clear isWorking, unlink the pid file, emit SIGUSR1
(DiscardRequested) exactly when discardIfFailed, and rethrow. -/
def changeIpv6 (lock : Option Nat) (isWorking : Bool) (pid : Nat)
    (discardIfFailed : Bool) (env : IpEnv) : ChangeOutcome :=
  let acq := isSupervisionProcess lock pid
  if acq.supervising then
    if isWorking then
      { lock := acq.lock, isWorking := true, result := .ok none,
        emittedResumed := false, emittedDiscard := false, stats := emptyIpStats }
    else
      match requestChangeIpV6 env with
      | (.ok ip, st) =>
        { lock := unlinkPidFile acq.lock, isWorking := false, result := .ok (some ip),
          emittedResumed := true, emittedDiscard := false, stats := st }
      | (.error e, st) =>
        { lock := unlinkPidFile acq.lock, isWorking := false, result := .error e,
          emittedResumed := false, emittedDiscard := discardIfFailed, stats := st }
  else
    { lock := acq.lock, isWorking := isWorking, result := .ok none,
      emittedResumed := false, emittedDiscard := false, stats := emptyIpStats }

/-- Constant RETRY_INTERVAL (ms) from the InstanceDiscarder source. -/
def RETRY_INTERVAL : Nat := 10 * 1000

/-- Constant DISCARD_TIMEOUT (ms) from the InstanceDiscarder source. -/
def DISCARD_TIMEOUT : Nat := 600 * 1000

/-- Fields of a pm2_env record used by the drain loop. -/
structure PmEnv where
  status : Option String
  deriving DecidableEq, Repr

/-- Fields of a pm2 ProcessDescription used by the drain loop; every field
is optional in the pm2 type, which the loop guards against. -/
structure ProcDesc where
  pm_id : Option Nat
  pid : Option Nat
  pm2_env : Option PmEnv
  deriving DecidableEq, Repr

/-- Result of the drain selection loop of InstanceDiscarder.discard: the
pm id recorded for the coordinating process itself (the last list entry
whose pid equals the own pid) and the processes for which a stop was
requested. -/
structure DrainScan where
  supPmId : Option Nat
  targets : List ProcDesc
  deriving DecidableEq, Repr

/-- Embedding of the drain selection loop of InstanceDiscarder.discard:
skip entries without pm_id or pm2_env; an entry whose pid equals the own
OS pid only records supervisionProcessPmId (assignment, so the last such
entry wins); any other entry is stop-targeted exactly when its status is
online or launching. -/
def drainScan (selfPid : Nat) : List ProcDesc → DrainScan
  | [] => { supPmId := none, targets := [] }
  | p :: rest =>
    match p.pm_id, p.pm2_env with
    | some pmId, some env =>
      if p.pid = some selfPid then
        let r := drainScan selfPid rest
        { supPmId := r.supPmId <|> some pmId, targets := r.targets }
      else if env.status = some "online" ∨ env.status = some "launching" then
        let r := drainScan selfPid rest
        { supPmId := r.supPmId, targets := p :: r.targets }
      else drainScan selfPid rest
    | _, _ => drainScan selfPid rest

/-- Outcome of one drain attempt: the stop requests issued (all are issued
eagerly, before Promise.all is awaited), the recorded own pm id, whether
the attempt reached terminateInstance, and whether a stop failure made the
attempt fail into the top-level catch. -/
structure DrainOutcome where
  stopRequests : List ProcDesc
  supPmId : Option Nat
  terminateCalled : Bool
  drainFailed : Bool
  deriving DecidableEq, Repr

/-- Embedding of one attempt of the drain phase of
InstanceDiscarder.discard: select the targets, issue a stop for each, and
proceed to terminateInstance only when every stop resolves; a single
rejected stop rejects the awaited Promise.all, so the attempt fails into
the catch block instead. stopOk gives the result of pm2.stop per pm id. -/
def drainAttempt (selfPid : Nat) (procs : List ProcDesc) (stopOk : Nat → Bool) : DrainOutcome :=
  let scan := drainScan selfPid procs
  let allOk := scan.targets.all (fun p => match p.pm_id with | some i => stopOk i | none => true)
  { stopRequests := scan.targets, supPmId := scan.supPmId,
    terminateCalled := allOk, drainFailed := !allOk }

/-- State of the escalation timer of InstanceDiscarder: whether the
setInterval handle is registered (killProcessTimeoutHandle defined), how
many times the interval callback has fired (each firing invokes
terminateInstance directly), and whether the protocol completed normally. -/
structure DiscTimerState where
  armed : Bool
  fires : Nat
  completed : Bool
  deriving DecidableEq, Repr

/-- Events of the escalation-timer machine. enter is the timer-arming block
at the top of a discard run (guarded: it arms only when no handle exists,
so a retry re-entry does not re-arm); fireTimeout is one elapse of the
DISCARD_TIMEOUT interval while the handle is registered — setInterval keeps
firing every interval until cleared; completeOk is the normal-completion
cleanup (clearInterval); attemptFail is the catch block of a failed
attempt, which does not touch the timer. -/
inductive DiscEv where
  | enter
  | fireTimeout
  | completeOk
  | attemptFail
  deriving DecidableEq, Repr

/-- Step function of the escalation-timer machine. -/
def discStep (s : DiscTimerState) (e : DiscEv) : Option DiscTimerState :=
  match e with
  | .enter => some (if s.armed then s else { s with armed := true })
  | .fireTimeout => if s.armed then some { s with fires := s.fires + 1 } else none
  | .completeOk => some { s with armed := false, completed := true }
  | .attemptFail => some s

/-- Initial escalation-timer state: no handle, no firing, not completed. -/
def discInit : DiscTimerState := { armed := false, fires := 0, completed := false }

/-- Run of the escalation-timer machine over a list of events. -/
def discRun (s : DiscTimerState) : List DiscEv → Option DiscTimerState
  | [] => some s
  | e :: es =>
    match discStep s e with
    | none => none
    | some s' => discRun s' es

/-! Claim theorems. -/

/-- C1: for every pair of lock-acquisition attempts on the same lock name
against an initially absent marker, the first attempt is the exclusive
create and reports supervising (Leader); the second attempt does not
create, and reports Leader exactly when the recorded owner id equals its
own process id (idempotent re-entry), otherwise NotLeader. -/
theorem c1_leader_lock_race (p1 p2 : Nat) :
    (isSupervisionProcess none p1).supervising = true ∧
    (isSupervisionProcess none p1).created = true ∧
    (isSupervisionProcess (isSupervisionProcess none p1).lock p2).lock = some p1 ∧
    (isSupervisionProcess (isSupervisionProcess none p1).lock p2).created = false ∧
    ((isSupervisionProcess (isSupervisionProcess none p1).lock p2).supervising = true ↔ p2 = p1) := by
  refine ⟨rfl, rfl, rfl, rfl, ?_⟩
  simp only [isSupervisionProcess, beq_iff_eq]
  exact eq_comm

/-- C1 witness: concrete instantiation of the lock-race theorem. -/
theorem c1_leader_lock_race_witness :
    (isSupervisionProcess none 41).supervising = true ∧
    (isSupervisionProcess (isSupervisionProcess none 41).lock 41).supervising = true ∧
    ¬(isSupervisionProcess (isSupervisionProcess none 41).lock 7).supervising = true := by
  refine ⟨(c1_leader_lock_race 41 7).1, ?_, ?_⟩
  · exact (c1_leader_lock_race 41 41).2.2.2.2.mpr rfl
  · intro h
    exact absurd ((c1_leader_lock_race 41 7).2.2.2.2.mp h) (by decide)

/-- C4 counterexample: the escalation timer is a setInterval, not a
one-shot setTimeout. Arming it once and letting the 600 s interval elapse
twice without normal completion yields two forced-termination firings, so
the claim that it fires exactly once when the protocol has not completed
by the ceiling is false. -/
theorem c4_escalation_counterexample :
    discRun discInit [DiscEv.enter, DiscEv.fireTimeout, DiscEv.fireTimeout] =
      some { armed := true, fires := 2, completed := false } ∧ (2 : Nat) ≠ 1 := by
  decide

/-- C4 (amended): the escalation interval has the fixed 600 s duration; it
is armed once per leadership acquisition (re-entering the arming block
while the handle exists changes nothing, and entering without a handle
arms it); every elapse of the interval while armed performs exactly one
forced instance termination and leaves the timer armed (so it keeps firing
every 600 s until disarmed, at least once if the protocol has not completed
by the ceiling); a failed attempt (the catch/retry path) never touches the
timer, so firing is independent of retries in flight; and the timer is
disarmed only by the normal-completion cleanup. -/
theorem c4_escalation_timer :
    DISCARD_TIMEOUT = 600 * 1000 ∧
    (∀ s : DiscTimerState, s.armed = true → discStep s .enter = some s) ∧
    (∀ s : DiscTimerState, s.armed = false → discStep s .enter = some { s with armed := true }) ∧
    (∀ s s' : DiscTimerState, discStep s .fireTimeout = some s' →
      s.armed = true ∧ s' = { s with fires := s.fires + 1 }) ∧
    (∀ s : DiscTimerState, discStep s .attemptFail = some s) ∧
    (∀ (s : DiscTimerState) (e : DiscEv) (s' : DiscTimerState),
      discStep s e = some s' → s'.armed = false → s.armed = false ∨ e = .completeOk) := by
  refine ⟨rfl, ?_, ?_, ?_, ?_, ?_⟩
  · intro s h
    simp [discStep, h]
  · intro s h
    simp [discStep, h]
  · rintro ⟨a, f, c⟩ s' h
    cases a
    · simp [discStep] at h
    · simp only [discStep, if_pos] at h
      cases h
      exact ⟨rfl, rfl⟩
  · intro s
    rfl
  · rintro ⟨a, f, c⟩ e s' hstep harmed
    cases e with
    | enter =>
      cases a
      · exact Or.inl rfl
      · simp only [discStep, if_pos, Option.some.injEq] at hstep
        subst hstep
        simp at harmed
    | fireTimeout =>
      cases a
      · exact Or.inl rfl
      · simp only [discStep, if_pos, Option.some.injEq] at hstep
        subst hstep
        simp at harmed
    | completeOk => exact Or.inr rfl
    | attemptFail =>
      cases a
      · exact Or.inl rfl
      · simp only [discStep, Option.some.injEq] at hstep
        subst hstep
        simp at harmed

/-- C4 witness: concrete instantiation of the amended escalation-timer
statement. -/
theorem c4_escalation_timer_witness :
    DISCARD_TIMEOUT = 600 * 1000 ∧
    discStep { armed := true, fires := 0, completed := false } .enter =
      some { armed := true, fires := 0, completed := false } ∧
    discStep discInit .enter = some { discInit with armed := true } ∧
    ((({ armed := true, fires := 3, completed := false } : DiscTimerState).armed = true) ∧
      ({ armed := true, fires := 4, completed := false } : DiscTimerState) =
        { armed := true, fires := 3 + 1, completed := false }) ∧
    discStep { armed := true, fires := 1, completed := false } .attemptFail =
      some { armed := true, fires := 1, completed := false } ∧
    (({ armed := true, fires := 0, completed := false } : DiscTimerState).armed = false ∨
      DiscEv.completeOk = DiscEv.completeOk) := by
  refine ⟨c4_escalation_timer.1, c4_escalation_timer.2.1 _ rfl, c4_escalation_timer.2.2.1 _ rfl,
    ?_, c4_escalation_timer.2.2.2.2.1 _, c4_escalation_timer.2.2.2.2.2 _ DiscEv.completeOk _ rfl rfl⟩
  exact c4_escalation_timer.2.2.2.1 { armed := true, fires := 3, completed := false } _ rfl

/-- Helper: with an absent new address (empty AssignedIpv6Addresses), no
lookup ever matches, so the loop runs its whole budget unconfirmed. -/
theorem myIpCheckLoop_none (echo : Nat → Option String) :
    ∀ fuel i, myIpCheckLoop echo none i fuel = (false, fuel) := by
  intro fuel
  induction fuel with
  | zero => intro i; rfl
  | succ n ih =>
    intro i
    simp [myIpCheckLoop, echoMatch, ih (i + 1)]

/-- Helper: the loop confirms exactly when some attempt within the budget
receives the new address from the remote echo. -/
theorem myIpCheckLoop_confirm_iff (echo : Nat → Option String) (ip : String) :
    ∀ fuel i, (myIpCheckLoop echo (some ip) i fuel).1 = true ↔
      ∃ j, i ≤ j ∧ j < i + fuel ∧ echo j = some ip := by
  intro fuel
  induction fuel with
  | zero =>
    intro i
    simp only [myIpCheckLoop]
    constructor
    · intro h
      exact absurd h (by simp)
    · rintro ⟨j, h1, h2, _⟩
      omega
  | succ n ih =>
    intro i
    by_cases hm : echoMatch (some ip) (echo i) = true
    · have hmatch : echo i = some ip := by
        revert hm
        unfold echoMatch
        cases echo i with
        | none => simp
        | some s => simp
      simp only [myIpCheckLoop, hm, if_pos]
      constructor
      · intro _
        exact ⟨i, le_refl i, by omega, hmatch⟩
      · intro _
        trivial
    · have hne : echo i ≠ some ip := by
        intro hcontra
        apply hm
        simp [echoMatch, hcontra]
      simp only [myIpCheckLoop, hm, if_neg, Bool.false_eq_true, not_false_iff]
      rw [ih (i + 1)]
      constructor
      · rintro ⟨j, h1, h2, h3⟩
        exact ⟨j, by omega, by omega, h3⟩
      · rintro ⟨j, h1, h2, h3⟩
        have : j ≠ i := fun hji => hne (hji ▸ h3)
        exact ⟨j, by omega, by omega, h3⟩

/-- Helper: an unconfirmed loop performs one lookup per budgeted attempt. -/
theorem myIpCheckLoop_exhaust (echo : Nat → Option String) (newIp : Option String) :
    ∀ fuel i, (myIpCheckLoop echo newIp i fuel).1 = false →
      (myIpCheckLoop echo newIp i fuel).2 = fuel := by
  intro fuel
  induction fuel with
  | zero => intro i _; rfl
  | succ n ih =>
    intro i h
    by_cases hm : echoMatch newIp (echo i) = true
    · simp [myIpCheckLoop, hm] at h
    · simp only [myIpCheckLoop, hm, if_neg, Bool.false_eq_true, not_false_iff] at h ⊢
      rw [ih (i + 1) h]

/-- Helper: in every branch of requestChangeIpV6, the unassign call record
is the same: one call carrying all bound addresses when some are bound,
and no call at all when none are bound. -/
theorem requestChangeIpV6_unassignCalls (env : IpEnv) :
    (requestChangeIpV6 env).2.unassignCalls =
      if env.info.ips.isEmpty then [] else [(env.info.id, env.info.ips)] := by
  unfold requestChangeIpV6
  dsimp only
  repeat' split
  all_goals rfl

/-- C5: when the single newly assigned address equals an address that was
bound before the rotation, requestChangeIpV6 raises the stale-reassignment
failure immediately and performs zero remote echo lookups. -/
theorem c5_anti_flap (env : IpEnv) (addrs : List String) (ip : String)
    (hok : env.unassignOk = true) (hassign : env.assignResult = some addrs)
    (hhead : addrs.head? = some ip) (hbound : ip ∈ env.info.ips) :
    (requestChangeIpV6 env).1 = .error .staleReassigned ∧
    (requestChangeIpV6 env).2.echoLookups = 0 := by
  have hc : env.info.ips.contains ip = true := by
    simpa using hbound
  have hne : env.info.ips.isEmpty = false := by
    cases hips : env.info.ips with
    | nil => rw [hips] at hbound; cases hbound
    | cons a l => rfl
  unfold requestChangeIpV6
  simp [hok, hassign, hhead, hc, hne, hbound]

/-- C5 witness: a concrete run in which the assigned address was already
bound: the run fails with the stale-reassignment error and no lookup. -/
theorem c5_anti_flap_witness :
    (requestChangeIpV6
        { info := { id := "eni-1", ips := ["adr-a", "adr-b"] }, unassignOk := true,
          assignResult := some ["adr-a"], echo := fun _ => none }).1 =
      .error .staleReassigned ∧
    (requestChangeIpV6
        { info := { id := "eni-1", ips := ["adr-a", "adr-b"] }, unassignOk := true,
          assignResult := some ["adr-a"], echo := fun _ => none }).2.echoLookups = 0 :=
  c5_anti_flap _ ["adr-a"] "adr-a" rfl rfl rfl (by decide)

/-- C6: during rotation, the unassign call carries exactly the currently
bound addresses and is skipped entirely when none are bound; whenever the
assignment step is reached (no bound addresses, or the unassign call
accepted), exactly one assignIpv6Addresses call with address count 1 is
made; a missing assignment result fails the run at once, and an empty
assignment result (whose only element is the JS undefined) fails it after
the confirmation loop exhausts — both throw sites use the same failure
message in the source. -/
theorem c6_rotation (env : IpEnv) :
    (requestChangeIpV6 env).2.unassignCalls =
      (if env.info.ips.isEmpty then [] else [(env.info.id, env.info.ips)]) ∧
    (env.info.ips.isEmpty = true ∨ env.unassignOk = true →
      (requestChangeIpV6 env).2.assignCalls = [(env.info.id, 1)] ∧
      (env.assignResult = none → (requestChangeIpV6 env).1 = .error .assignFailed) ∧
      (env.assignResult = some [] → (requestChangeIpV6 env).1 = .error .confirmExhausted)) := by
  obtain ⟨⟨nid, ips⟩, uok, ares, echoF⟩ := env
  refine ⟨requestChangeIpV6_unassignCalls _, ?_⟩
  intro h
  dsimp only at h
  have hcond : ¬(¬ips.isEmpty = true ∧ uok = false) := by
    rcases h with h | h
    · exact fun hc => hc.1 h
    · intro hc
      rw [h] at hc
      exact absurd hc.2 (by simp)
  unfold requestChangeIpV6
  dsimp only
  rw [if_neg hcond]
  cases ares with
  | none => exact ⟨rfl, fun _ => rfl, by simp⟩
  | some addrs =>
    cases addrs with
    | nil =>
      refine ⟨?_, by simp, fun _ => ?_⟩ <;> simp [myIpCheckLoop_none]
    | cons a l =>
      refine ⟨?_, by simp, by simp⟩
      dsimp only [List.head?]
      repeat' split
      all_goals rfl

/-- C6 witness: with no bound addresses the unassign call is skipped, one
assign call with count 1 is made, and a missing assignment result fails
the run. -/
theorem c6_rotation_witness :
    (requestChangeIpV6
        { info := { id := "eni-2", ips := [] }, unassignOk := true,
          assignResult := none, echo := fun _ => none }).2.unassignCalls = [] ∧
    (requestChangeIpV6
        { info := { id := "eni-2", ips := [] }, unassignOk := true,
          assignResult := none, echo := fun _ => none }).2.assignCalls = [("eni-2", 1)] ∧
    (requestChangeIpV6
        { info := { id := "eni-2", ips := [] }, unassignOk := true,
          assignResult := none, echo := fun _ => none }).1 = .error .assignFailed := by
  have h := c6_rotation
    { info := { id := "eni-2", ips := [] }, unassignOk := true,
      assignResult := none, echo := fun _ => none }
  exact ⟨h.1.trans (by decide), (h.2 (Or.inl rfl)).1, (h.2 (Or.inl rfl)).2.1 rfl⟩

/-- C7: in a run where the interface is initially bound to [A], the lock is
free (or already owned by the caller) and the manager is not already
working, the unassign call is invoked exactly once with [A]; when some
remote echo lookup within the 30-attempt budget returns the newly assigned
B (B different from A; failed lookups are swallowed and retried), the
protocol returns B and emits Resumed (SIGCONT); when all 30 attempts pass
without a match, the run is a terminal failure after exactly 30 lookups and
no Resumed is emitted. The budget constants are 30 attempts, 5000 ms
apart. -/
theorem c7_remediation_success (lock : Option Nat) (pid : Nat) (dif : Bool)
    (nid A B : String) (echoF : Nat → Option String) (out : ChangeOutcome)
    (hAB : B ≠ A) (hlock : lock = none ∨ lock = some pid)
    (hout : out = changeIpv6 lock false pid dif
      { info := { id := nid, ips := [A] }, unassignOk := true,
        assignResult := some [B], echo := echoF }) :
    MYIP_CHECK_RETRY = 30 ∧ MYIP_CHECK_RETRY_DURATION = 5000 ∧
    out.stats.unassignCalls = [(nid, [A])] ∧
    ((∃ i, i < MYIP_CHECK_RETRY ∧ echoF i = some B) →
      out.result = .ok (some B) ∧ out.emittedResumed = true) ∧
    ((∀ i, i < MYIP_CHECK_RETRY → echoF i ≠ some B) →
      out.result = .error .confirmExhausted ∧ out.emittedResumed = false ∧
      out.stats.echoLookups = MYIP_CHECK_RETRY) := by
  subst hout
  have hsup : (isSupervisionProcess lock pid).supervising = true := by
    rcases hlock with h | h <;> subst h <;> simp [isSupervisionProcess]
  have hnotmem : ¬ B ∈ [A] := by simpa using hAB
  by_cases hr : (myIpCheckLoop echoF (some B) 0 MYIP_CHECK_RETRY).1 = true
  · refine ⟨rfl, rfl, ?_, ?_, ?_⟩
    · unfold changeIpv6 requestChangeIpV6
      simp [hsup, hnotmem, hAB, hr]
    · intro _
      unfold changeIpv6 requestChangeIpV6
      simp [hsup, hnotmem, hAB, hr]
    · intro hall
      exfalso
      rcases (myIpCheckLoop_confirm_iff echoF B MYIP_CHECK_RETRY 0).mp hr with ⟨j, _, hj2, hj3⟩
      exact hall j (by omega) hj3
  · have hrf : (myIpCheckLoop echoF (some B) 0 MYIP_CHECK_RETRY).1 = false := by
      simpa using hr
    refine ⟨rfl, rfl, ?_, ?_, ?_⟩
    · unfold changeIpv6 requestChangeIpV6
      simp [hsup, hnotmem, hAB, hrf]
    · rintro ⟨i, hi, hei⟩
      exfalso
      have hc : (myIpCheckLoop echoF (some B) 0 MYIP_CHECK_RETRY).1 = true :=
        (myIpCheckLoop_confirm_iff echoF B MYIP_CHECK_RETRY 0).mpr ⟨i, by omega, by omega, hei⟩
      rw [hc] at hrf
      cases hrf
    · intro _
      have hlen := myIpCheckLoop_exhaust echoF (some B) MYIP_CHECK_RETRY 0 hrf
      unfold changeIpv6 requestChangeIpV6
      simp [hsup, hnotmem, hAB, hrf, hlen]

/-- C7 witness: a concrete success run; the remote echo returns the new
address on the third attempt after two swallowed failures. -/
theorem c7_remediation_success_witness :
    (changeIpv6 none false 9 false
        { info := { id := "eni-3", ips := ["adr-a"] }, unassignOk := true,
          assignResult := some ["adr-b"],
          echo := fun i => if i == 2 then some "adr-b" else none }).stats.unassignCalls =
      [("eni-3", ["adr-a"])] ∧
    (changeIpv6 none false 9 false
        { info := { id := "eni-3", ips := ["adr-a"] }, unassignOk := true,
          assignResult := some ["adr-b"],
          echo := fun i => if i == 2 then some "adr-b" else none }).result = .ok (some "adr-b") ∧
    (changeIpv6 none false 9 false
        { info := { id := "eni-3", ips := ["adr-a"] }, unassignOk := true,
          assignResult := some ["adr-b"],
          echo := fun i => if i == 2 then some "adr-b" else none }).emittedResumed = true := by
  have h := c7_remediation_success none 9 false "eni-3" "adr-a" "adr-b"
    (fun i => if i == 2 then some "adr-b" else none) _ (by decide) (Or.inl rfl) rfl
  exact ⟨h.2.2.1, (h.2.2.2.1 ⟨2, by decide, rfl⟩).1, (h.2.2.2.1 ⟨2, by decide, rfl⟩).2⟩

/-- C8: for every changeIpv6 run that ends in a failure result, the pid
file is removed (via unlinkPidFile, whose try/catch tolerates an already
removed marker), DiscardRequested (SIGUSR1) is emitted exactly when the
caller enabled discard-on-failure, Resumed is not emitted, and the working
flag is cleared before the failure is rethrown; for every run that ends
with a new address, the pid file is removed, Resumed (SIGCONT) is emitted
and no discard is requested. The early-return paths (not the supervising
process, or already working) return ok none and are not runs that end in
failure or success. -/
theorem c8_failure_cleanup (lock : Option Nat) (isW : Bool) (pid : Nat) (dif : Bool)
    (env : IpEnv) (out : ChangeOutcome) (hout : out = changeIpv6 lock isW pid dif env) :
    (∀ e, out.result = .error e → out.lock = none ∧ out.emittedDiscard = dif ∧
      out.emittedResumed = false ∧ out.isWorking = false) ∧
    (∀ ip, out.result = .ok (some ip) → out.lock = none ∧ out.emittedResumed = true ∧
      out.emittedDiscard = false ∧ out.isWorking = false) ∧
    (∀ l, unlinkPidFile l = none) := by
  subst hout
  rcases hreq : requestChangeIpV6 env with ⟨res, st⟩
  by_cases hsup : (isSupervisionProcess lock pid).supervising = true
  · cases isW with
    | false =>
      cases res with
      | ok v =>
        have hch : changeIpv6 lock false pid dif env =
            { lock := none, isWorking := false, result := .ok (some v),
              emittedResumed := true, emittedDiscard := false, stats := st } := by
          unfold changeIpv6
          rw [hreq]
          simp [hsup, unlinkPidFile]
        rw [hch]
        refine ⟨?_, ?_, fun _ => rfl⟩
        · intro e he
          exact absurd he (by simp)
        · intro ip _
          exact ⟨rfl, rfl, rfl, rfl⟩
      | error e0 =>
        have hch : changeIpv6 lock false pid dif env =
            { lock := none, isWorking := false, result := .error e0,
              emittedResumed := false, emittedDiscard := dif, stats := st } := by
          unfold changeIpv6
          rw [hreq]
          simp [hsup, unlinkPidFile]
        rw [hch]
        refine ⟨?_, ?_, fun _ => rfl⟩
        · intro e _
          exact ⟨rfl, rfl, rfl, rfl⟩
        · intro ip hip
          exact absurd hip (by simp)
    | true =>
      refine ⟨?_, ?_, fun _ => rfl⟩ <;> intro x hx <;>
        simp [changeIpv6, hsup] at hx
  · refine ⟨?_, ?_, fun _ => rfl⟩ <;> intro x hx <;>
      simp [changeIpv6, hsup] at hx

/-- C8 witness: a concrete failing run (rejected unassign call) with
discard-on-failure enabled: the pid file ends removed, DiscardRequested is
emitted, Resumed is not, the working flag is cleared, and unlinking an
already-present marker succeeds. -/
theorem c8_failure_cleanup_witness :
    (changeIpv6 none false 9 true
        { info := { id := "eni-4", ips := ["adr-a"] }, unassignOk := false,
          assignResult := none, echo := fun _ => none }).lock = none ∧
    (changeIpv6 none false 9 true
        { info := { id := "eni-4", ips := ["adr-a"] }, unassignOk := false,
          assignResult := none, echo := fun _ => none }).emittedDiscard = true ∧
    (changeIpv6 none false 9 true
        { info := { id := "eni-4", ips := ["adr-a"] }, unassignOk := false,
          assignResult := none, echo := fun _ => none }).emittedResumed = false ∧
    (changeIpv6 none false 9 true
        { info := { id := "eni-4", ips := ["adr-a"] }, unassignOk := false,
          assignResult := none, echo := fun _ => none }).isWorking = false ∧
    unlinkPidFile (some 9) = none := by
  have h := c8_failure_cleanup none false 9 true
    { info := { id := "eni-4", ips := ["adr-a"] }, unassignOk := false,
      assignResult := none, echo := fun _ => none } _ rfl
  rcases h.1 .unassignRejected rfl with ⟨h1, h2, h3, h4⟩
  exact ⟨h1, h2, h3, h4, h.2.2 (some 9)⟩

/-- Helper: completeness of the drain selection — every listed process
with a pm id and a pm2 env whose status is online or launching, other than
the coordinating process, is selected as a stop target. -/
theorem drainScan_mem (selfPid : Nat) :
    ∀ (procs : List ProcDesc) (p : ProcDesc), p ∈ procs →
      ∀ pmId env, p.pm_id = some pmId → p.pm2_env = some env →
      (env.status = some "online" ∨ env.status = some "launching") →
      p.pid ≠ some selfPid → p ∈ (drainScan selfPid procs).targets := by
  intro procs
  induction procs with
  | nil => intro p hp; cases hp
  | cons q rest ih =>
    intro p hp pmId env h1 h2 h3 h4
    rcases List.mem_cons.mp hp with rfl | hp
    · unfold drainScan
      rw [h1, h2]
      dsimp only
      rw [if_neg h4, if_pos h3]
      exact List.mem_cons_self _ _
    · unfold drainScan
      cases hqid : q.pm_id with
      | none =>
        dsimp only
        exact ih p hp pmId env h1 h2 h3 h4
      | some qid =>
        cases hqe : q.pm2_env with
        | none =>
          dsimp only
          exact ih p hp pmId env h1 h2 h3 h4
        | some qenv =>
          dsimp only
          by_cases hqpid : q.pid = some selfPid
          · rw [if_pos hqpid]
            exact ih p hp pmId env h1 h2 h3 h4
          · rw [if_neg hqpid]
            by_cases hqst : qenv.status = some "online" ∨ qenv.status = some "launching"
            · rw [if_pos hqst]
              exact List.mem_cons_of_mem _ (ih p hp pmId env h1 h2 h3 h4)
            · rw [if_neg hqst]
              exact ih p hp pmId env h1 h2 h3 h4

/-- Helper: soundness of the drain selection — every selected stop target
has a pm id, is not the coordinating process, and carries a pm2 env whose
status is online or launching (in particular no stopped process is ever
selected). -/
theorem drainScan_sound (selfPid : Nat) :
    ∀ (procs : List ProcDesc) (p : ProcDesc), p ∈ (drainScan selfPid procs).targets →
      p.pid ≠ some selfPid ∧ (∃ i, p.pm_id = some i) ∧
      ∃ env, p.pm2_env = some env ∧
        (env.status = some "online" ∨ env.status = some "launching") := by
  intro procs
  induction procs with
  | nil => intro p hp; cases hp
  | cons q rest ih =>
    intro p hp
    revert hp
    unfold drainScan
    cases hqid : q.pm_id with
    | none =>
      dsimp only
      exact ih p
    | some qid =>
      cases hqe : q.pm2_env with
      | none =>
        dsimp only
        exact ih p
      | some qenv =>
        dsimp only
        by_cases hqpid : q.pid = some selfPid
        · rw [if_pos hqpid]
          exact ih p
        · rw [if_neg hqpid]
          by_cases hqst : qenv.status = some "online" ∨ qenv.status = some "launching"
          · rw [if_pos hqst]
            intro hp
            rcases List.mem_cons.mp hp with rfl | hp
            · exact ⟨hqpid, ⟨qid, hqid⟩, qenv, hqe, hqst⟩
            · exact ih p hp
          · rw [if_neg hqst]
            exact ih p

/-- C9: a drain attempt requests a stop for every local process whose
status is online or launching except the coordinating process itself (a
process is identified for stopping by its pm id, and a status only exists
inside a present pm2 env, which is why both are required); every issued
stop request targets a non-coordinating process whose status is online or
launching, so a process already stopped is never targeted; and a single
failed stop fails the whole attempt (Promise.all rejects into the
top-level catch) and prevents the attempt from reaching
terminateInstance. -/
theorem c9_drain (selfPid : Nat) (procs : List ProcDesc) (stopOk : Nat → Bool) :
    (∀ p ∈ procs, ∀ pmId env, p.pm_id = some pmId → p.pm2_env = some env →
      (env.status = some "online" ∨ env.status = some "launching") →
      p.pid ≠ some selfPid → p ∈ (drainAttempt selfPid procs stopOk).stopRequests) ∧
    (∀ p ∈ (drainAttempt selfPid procs stopOk).stopRequests,
      p.pid ≠ some selfPid ∧ (∃ i, p.pm_id = some i) ∧
      ∃ env, p.pm2_env = some env ∧
        (env.status = some "online" ∨ env.status = some "launching")) ∧
    ((∃ p ∈ (drainAttempt selfPid procs stopOk).stopRequests,
        ∃ i, p.pm_id = some i ∧ stopOk i = false) →
      (drainAttempt selfPid procs stopOk).drainFailed = true ∧
      (drainAttempt selfPid procs stopOk).terminateCalled = false) := by
  refine ⟨?_, ?_, ?_⟩
  · intro p hp pmId env h1 h2 h3 h4
    exact drainScan_mem selfPid procs p hp pmId env h1 h2 h3 h4
  · intro p hp
    exact drainScan_sound selfPid procs p hp
  · rintro ⟨p, hp, i, hpi, hfail⟩
    have hall : ((drainScan selfPid procs).targets.all
        (fun p => match p.pm_id with | some i => stopOk i | none => true)) = false := by
      by_cases h : ((drainScan selfPid procs).targets.all
          (fun p => match p.pm_id with | some i => stopOk i | none => true)) = true
      · exfalso
        have hmem := List.all_eq_true.mp h p hp
        rw [hpi] at hmem
        dsimp only at hmem
        rw [hmem] at hfail
        cases hfail
      · exact Bool.not_eq_true _ ▸ (by simpa using h)
    unfold drainAttempt
    dsimp only
    rw [hall]
    exact ⟨rfl, rfl⟩

/-- C9 witness: a concrete process table — an online worker, a launching
worker, a stopped worker, and the coordinating process itself (online) —
where the stop of the launching worker fails: exactly the two active
non-coordinating workers are targeted, and the attempt fails without
reaching terminateInstance. -/
theorem c9_drain_witness :
    (drainAttempt 100
        [ { pm_id := some 0, pid := some 100, pm2_env := some { status := some "online" } },
          { pm_id := some 1, pid := some 101, pm2_env := some { status := some "online" } },
          { pm_id := some 2, pid := some 102, pm2_env := some { status := some "launching" } },
          { pm_id := some 3, pid := some 103, pm2_env := some { status := some "stopped" } } ]
        (fun i => i != 2)).stopRequests =
      [ { pm_id := some 1, pid := some 101, pm2_env := some { status := some "online" } },
        { pm_id := some 2, pid := some 102, pm2_env := some { status := some "launching" } } ] ∧
    ({ pm_id := some 1, pid := some 101, pm2_env := some { status := some "online" } } : ProcDesc) ∈
      (drainAttempt 100
        [ { pm_id := some 0, pid := some 100, pm2_env := some { status := some "online" } },
          { pm_id := some 1, pid := some 101, pm2_env := some { status := some "online" } },
          { pm_id := some 2, pid := some 102, pm2_env := some { status := some "launching" } },
          { pm_id := some 3, pid := some 103, pm2_env := some { status := some "stopped" } } ]
        (fun i => i != 2)).stopRequests ∧
    (drainAttempt 100
        [ { pm_id := some 0, pid := some 100, pm2_env := some { status := some "online" } },
          { pm_id := some 1, pid := some 101, pm2_env := some { status := some "online" } },
          { pm_id := some 2, pid := some 102, pm2_env := some { status := some "launching" } },
          { pm_id := some 3, pid := some 103, pm2_env := some { status := some "stopped" } } ]
        (fun i => i != 2)).drainFailed = true ∧
    (drainAttempt 100
        [ { pm_id := some 0, pid := some 100, pm2_env := some { status := some "online" } },
          { pm_id := some 1, pid := some 101, pm2_env := some { status := some "online" } },
          { pm_id := some 2, pid := some 102, pm2_env := some { status := some "launching" } },
          { pm_id := some 3, pid := some 103, pm2_env := some { status := some "stopped" } } ]
        (fun i => i != 2)).terminateCalled = false := by
  have hmem := (c9_drain 100
    [ { pm_id := some 0, pid := some 100, pm2_env := some { status := some "online" } },
      { pm_id := some 1, pid := some 101, pm2_env := some { status := some "online" } },
      { pm_id := some 2, pid := some 102, pm2_env := some { status := some "launching" } },
      { pm_id := some 3, pid := some 103, pm2_env := some { status := some "stopped" } } ]
    (fun i => i != 2)).1
    { pm_id := some 1, pid := some 101, pm2_env := some { status := some "online" } }
    (by decide) 1 { status := some "online" } rfl rfl (Or.inl rfl) (by decide)
  have hfail := (c9_drain 100
    [ { pm_id := some 0, pid := some 100, pm2_env := some { status := some "online" } },
      { pm_id := some 1, pid := some 101, pm2_env := some { status := some "online" } },
      { pm_id := some 2, pid := some 102, pm2_env := some { status := some "launching" } },
      { pm_id := some 3, pid := some 103, pm2_env := some { status := some "stopped" } } ]
    (fun i => i != 2)).2.2
    ⟨{ pm_id := some 2, pid := some 102, pm2_env := some { status := some "launching" } },
      by decide, 2, rfl, rfl⟩
  exact ⟨by decide, hmem, hfail.1, hfail.2⟩

/-- Helper: nextTick never changes the counter, the flags or the
observers; it either leaves the exit code unchanged or, exactly when the
counter is zero and a kill is requested, records exit code 0. -/
theorem nextTick_spec (s : BMState) :
    (nextTick s).nowRunningTask = s.nowRunningTask ∧
    (nextTick s).needKillProcess = s.needKillProcess ∧
    (nextTick s).inFlight = s.inFlight ∧
    (nextTick s).executions = s.executions ∧
    ((nextTick s).exitCode = s.exitCode ∨
      ((nextTick s).exitCode = some 0 ∧ s.nowRunningTask = 0 ∧ s.needKillProcess = true)) := by
  unfold nextTick
  by_cases h : s.nowRunningTask = 0 ∧ s.needKillProcess = true
  · rw [if_pos h]
    exact ⟨rfl, rfl, rfl, rfl, Or.inr ⟨rfl, h.1, h.2⟩⟩
  · rw [if_neg h]
    exact ⟨rfl, rfl, rfl, rfl, Or.inl rfl⟩

/-- C2: a step of the BatchManager machine turns a live state into an
exited one only with exit code 0 and only when the running-task counter is
0 and a kill was requested; a SIGINT never changes the counter, the
in-flight jobs or the execution count (no preemption); and concretely,
with two tasks in flight, SIGINT does not exit the process, the first
completion does not exit it, and the second completion (counter reaching
0) exits it with code 0. -/
theorem c2_shutdown (s : BMState) (e : BMEv) (s' : BMState)
    (hstep : bmStep s e = some s') :
    (s'.exitCode ≠ none →
      s'.exitCode = some 0 ∧ s'.nowRunningTask = 0 ∧ s'.needKillProcess = true) ∧
    (e = .sigint →
      s'.inFlight = s.inFlight ∧ s'.nowRunningTask = s.nowRunningTask ∧
      s'.executions = s.executions) ∧
    (bmRun { needKillProcess := false, isDiscarding := false, isIpChanging := false,
             nowRunningTask := 2, inFlight := 2, executions := 2, exitCode := none }
        [BMEv.sigint, BMEv.jobDone false] =
      some { needKillProcess := true, isDiscarding := false, isIpChanging := false,
             nowRunningTask := 1, inFlight := 1, executions := 2, exitCode := none }) ∧
    (bmRun { needKillProcess := true, isDiscarding := false, isIpChanging := false,
             nowRunningTask := 1, inFlight := 1, executions := 2, exitCode := none }
        [BMEv.jobDone true] =
      some { needKillProcess := true, isDiscarding := false, isIpChanging := false,
             nowRunningTask := 0, inFlight := 0, executions := 2, exitCode := some 0 }) := by
  refine ⟨?_, ?_, by decide, by decide⟩
  · intro hne
    unfold bmStep at hstep
    by_cases hex : s.exitCode = none
    · rw [if_pos hex] at hstep
      cases e with
      | sigint =>
        dsimp only at hstep
        injection hstep with hstep
        subst hstep
        have hs := nextTick_spec { s with needKillProcess := true }
        rcases hs.2.2.2.2 with h | h
        · exact absurd (h.trans hex) hne
        · exact ⟨h.1, hs.1.trans h.2.1, hs.2.1.trans h.2.2⟩
      | sigusr1 en =>
        dsimp only at hstep
        injection hstep with hstep
        subst hstep
        exfalso
        apply hne
        cases en <;> simpa using hex
      | sigusr2 en =>
        dsimp only at hstep
        injection hstep with hstep
        subst hstep
        exfalso
        apply hne
        cases en <;> simpa using hex
      | sigcont =>
        dsimp only at hstep
        injection hstep with hstep
        subst hstep
        exact absurd hex hne
      | cronTick =>
        dsimp only at hstep
        injection hstep with hstep
        subst hstep
        exfalso
        apply hne
        by_cases hb : bmBlocked s = true <;> simp [hb, hex]
      | iterStart =>
        dsimp only at hstep
        by_cases hb : bmBlocked s = true
        · rw [if_pos hb] at hstep
          cases hstep
        · rw [if_neg hb] at hstep
          injection hstep with hstep
          subst hstep
          exact absurd hex hne
      | pollTick =>
        dsimp only at hstep
        by_cases hb : bmBlocked s = true
        · rw [if_pos hb] at hstep
          injection hstep with hstep
          subst hstep
          have hs := nextTick_spec s
          rcases hs.2.2.2.2 with h | h
          · exact absurd (h.trans hex) hne
          · exact ⟨h.1, hs.1.trans h.2.1, hs.2.1.trans h.2.2⟩
        · rw [if_neg hb] at hstep
          cases hstep
      | jobDone failed =>
        dsimp only at hstep
        by_cases hz : s.inFlight = 0
        · rw [if_pos hz] at hstep
          cases hstep
        · rw [if_neg hz] at hstep
          injection hstep with hstep
          subst hstep
          have hs := nextTick_spec
            { s with nowRunningTask := s.nowRunningTask - 1, inFlight := s.inFlight - 1 }
          rcases hs.2.2.2.2 with h | h
          · exact absurd (h.trans hex) hne
          · exact ⟨h.1, hs.1.trans h.2.1, hs.2.1.trans h.2.2⟩
    · rw [if_neg hex] at hstep
      cases hstep
  · intro he
    subst he
    unfold bmStep at hstep
    by_cases hex : s.exitCode = none
    · rw [if_pos hex] at hstep
      dsimp only at hstep
      injection hstep with hstep
      subst hstep
      have hs := nextTick_spec { s with needKillProcess := true }
      exact ⟨hs.2.2.1, hs.1, hs.2.2.2.1⟩
    · rw [if_neg hex] at hstep
      cases hstep

/-- C2 witness: concrete instantiation — a SIGINT with two tasks in flight
sets the kill flag without exiting and preserves the counter. -/
theorem c2_shutdown_witness :
    bmStep { needKillProcess := false, isDiscarding := false, isIpChanging := false,
             nowRunningTask := 2, inFlight := 2, executions := 2, exitCode := none }
        BMEv.sigint =
      some { needKillProcess := true, isDiscarding := false, isIpChanging := false,
             nowRunningTask := 2, inFlight := 2, executions := 2, exitCode := none } ∧
    (({ needKillProcess := true, isDiscarding := false, isIpChanging := false,
        nowRunningTask := 2, inFlight := 2, executions := 2, exitCode := none } : BMState).inFlight = 2 ∧
      ({ needKillProcess := true, isDiscarding := false, isIpChanging := false,
         nowRunningTask := 2, inFlight := 2, executions := 2, exitCode := none } : BMState).nowRunningTask = 2 ∧
      ({ needKillProcess := true, isDiscarding := false, isIpChanging := false,
         nowRunningTask := 2, inFlight := 2, executions := 2, exitCode := none } : BMState).executions = 2) := by
  have h := c2_shutdown
    { needKillProcess := false, isDiscarding := false, isIpChanging := false,
      nowRunningTask := 2, inFlight := 2, executions := 2, exitCode := none }
    BMEv.sigint
    { needKillProcess := true, isDiscarding := false, isIpChanging := false,
      nowRunningTask := 2, inFlight := 2, executions := 2, exitCode := none }
    (by decide)
  exact ⟨by decide, h.2.1 rfl⟩

/-- C3: on a live scheduler state, a cron tick that fires while
discarding, ip-changing or kill-requested leaves the state completely
unchanged — zero job executions, nothing queued or recorded for replay;
once all three flags are clear, the next tick increments the running-task
counter and starts one job execution, and the completion of that job —
whether or not its body threw, since the failure is caught and logged —
decrements the counter back and then evaluates the shutdown condition
(nextTick). -/
theorem c3_tick_gating (s : BMState) (hrun : s.exitCode = none) :
    (bmBlocked s = true → bmStep s .cronTick = some s) ∧
    (bmBlocked s = false →
      bmStep s .cronTick =
        some { s with
                nowRunningTask := s.nowRunningTask + 1,
                inFlight := s.inFlight + 1,
                executions := s.executions + 1 } ∧
      ∀ failed : Bool,
        bmStep { s with
                  nowRunningTask := s.nowRunningTask + 1,
                  inFlight := s.inFlight + 1,
                  executions := s.executions + 1 } (.jobDone failed) =
          some (nextTick { s with executions := s.executions + 1 })) := by
  obtain ⟨kf, df, cf, n, fl, ex, ec⟩ := s
  dsimp only at hrun
  subst hrun
  constructor
  · intro hb
    simp [bmStep, hb]
  · intro hb
    constructor
    · simp [bmStep, hb]
    · intro failed
      simp only [bmStep, if_pos]
      rw [if_neg (by simp)]
      have hA : n + 1 - 1 = n := by omega
      have hB : fl + 1 - 1 = fl := by omega
      simp only [hA, hB]

/-- C3 witness: a blocked tick (discarding) is dropped with the state
unchanged; an unblocked tick from the initial state starts one execution,
and its completion returns the counter to zero and evaluates nextTick. -/
theorem c3_tick_gating_witness :
    bmStep { bmInit with isDiscarding := true } .cronTick =
      some { bmInit with isDiscarding := true } ∧
    bmStep bmInit .cronTick =
      some { bmInit with nowRunningTask := 1, inFlight := 1, executions := 1 } ∧
    bmStep { bmInit with nowRunningTask := 1, inFlight := 1, executions := 1 }
        (.jobDone true) =
      some (nextTick { bmInit with executions := 1 }) := by
  have h1 := (c3_tick_gating { bmInit with isDiscarding := true } rfl).1 rfl
  have h2 := (c3_tick_gating bmInit rfl).2 rfl
  exact ⟨h1, h2.1, h2.2 true⟩

/-- Helper: one step of the BatchManager machine preserves the equality
between the running-task counter and the number of in-flight job bodies —
the decrement of jobDone runs even for a failed job body (the catch
swallows the failure before the decrement in both the cron path and the
infinite-loop path), and jobDone is only enabled while a body is in
flight. -/
theorem bmStep_counter_inv (s : BMState) (e : BMEv) (s' : BMState)
    (hstep : bmStep s e = some s') (hinv : s.nowRunningTask = (s.inFlight : Int)) :
    s'.nowRunningTask = (s'.inFlight : Int) := by
  unfold bmStep at hstep
  by_cases hex : s.exitCode = none
  · rw [if_pos hex] at hstep
    cases e with
    | sigint =>
      dsimp only at hstep
      injection hstep with hstep
      subst hstep
      have hs := nextTick_spec { s with needKillProcess := true }
      rw [hs.1, hs.2.2.1]
      exact hinv
    | sigusr1 en =>
      dsimp only at hstep
      injection hstep with hstep
      subst hstep
      cases en <;> simpa using hinv
    | sigusr2 en =>
      dsimp only at hstep
      injection hstep with hstep
      subst hstep
      cases en <;> simpa using hinv
    | sigcont =>
      dsimp only at hstep
      injection hstep with hstep
      subst hstep
      exact hinv
    | cronTick =>
      dsimp only at hstep
      injection hstep with hstep
      subst hstep
      by_cases hb : bmBlocked s = true
      · simpa [hb] using hinv
      · simp only [hb, Bool.false_eq_true, if_neg, not_false_iff]
        show s.nowRunningTask + 1 = ((s.inFlight + 1 : Nat) : Int)
        omega
    | iterStart =>
      dsimp only at hstep
      by_cases hb : bmBlocked s = true
      · rw [if_pos hb] at hstep
        cases hstep
      · rw [if_neg hb] at hstep
        injection hstep with hstep
        subst hstep
        show s.nowRunningTask + 1 = ((s.inFlight + 1 : Nat) : Int)
        omega
    | pollTick =>
      dsimp only at hstep
      by_cases hb : bmBlocked s = true
      · rw [if_pos hb] at hstep
        injection hstep with hstep
        subst hstep
        have hs := nextTick_spec s
        rw [hs.1, hs.2.2.1]
        exact hinv
      · rw [if_neg hb] at hstep
        cases hstep
    | jobDone failed =>
      dsimp only at hstep
      by_cases hz : s.inFlight = 0
      · rw [if_pos hz] at hstep
        cases hstep
      · rw [if_neg hz] at hstep
        injection hstep with hstep
        subst hstep
        have hs := nextTick_spec
          { s with nowRunningTask := s.nowRunningTask - 1, inFlight := s.inFlight - 1 }
        rw [hs.1, hs.2.2.1]
        show s.nowRunningTask - 1 = ((s.inFlight - 1 : Nat) : Int)
        omega
  · rw [if_neg hex] at hstep
    cases hstep

/-- Helper: the counter invariant is preserved by whole runs. -/
theorem bmRun_counter_inv :
    ∀ (evs : List BMEv) (s s' : BMState), bmRun s evs = some s' →
      s.nowRunningTask = (s.inFlight : Int) → s'.nowRunningTask = (s'.inFlight : Int) := by
  intro evs
  induction evs with
  | nil =>
    intro s s' h hinv
    unfold bmRun at h
    injection h with h
    subst h
    exact hinv
  | cons e es ih =>
    intro s s' h hinv
    unfold bmRun at h
    cases hstep : bmStep s e with
    | none => rw [hstep] at h; cases h
    | some s1 =>
      rw [hstep] at h
      exact ih s1 s' h (bmStep_counter_inv s e s1 hstep hinv)

/-- C10: in every state reachable from the initial BatchManager state —
over any interleaving of cron ticks, infinite-loop iterations, signal
handlers and job completions, with job bodies throwing or not — the
running-task counter equals the number of in-flight job bodies and is
therefore never negative. -/
theorem c10_counter_nonneg (evs : List BMEv) (s : BMState)
    (h : bmRun bmInit evs = some s) :
    s.nowRunningTask = (s.inFlight : Int) ∧ 0 ≤ s.nowRunningTask := by
  have hinv := bmRun_counter_inv evs bmInit s h rfl
  exact ⟨hinv, by omega⟩

/-- C10 witness: a concrete run — one tick whose job fails — ends with the
counter back at zero, equal to the in-flight count. -/
theorem c10_counter_nonneg_witness :
    bmRun bmInit [BMEv.cronTick, BMEv.jobDone true] =
      some { needKillProcess := false, isDiscarding := false, isIpChanging := false,
             nowRunningTask := 0, inFlight := 0, executions := 1, exitCode := none } ∧
    ({ needKillProcess := false, isDiscarding := false, isIpChanging := false,
       nowRunningTask := 0, inFlight := 0, executions := 1,
       exitCode := none } : BMState).nowRunningTask =
      (({ needKillProcess := false, isDiscarding := false, isIpChanging := false,
          nowRunningTask := 0, inFlight := 0, executions := 1,
          exitCode := none } : BMState).inFlight : Int) ∧
    0 ≤ ({ needKillProcess := false, isDiscarding := false, isIpChanging := false,
           nowRunningTask := 0, inFlight := 0, executions := 1,
           exitCode := none } : BMState).nowRunningTask := by
  have h := c10_counter_nonneg [BMEv.cronTick, BMEv.jobDone true]
    { needKillProcess := false, isDiscarding := false, isIpChanging := false,
      nowRunningTask := 0, inFlight := 0, executions := 1, exitCode := none }
    (by decide)
  exact ⟨by decide, h.1, h.2⟩
